import Mathlib

/-!
Shallow embedding of the xlink dispatcher (xlink-dispatcher.c) for
verification of its natural-language specification.

The embedding follows the C source closely:
- machine integers (`uint32_t`) are `Nat` with `% 2^32` where overflow can
  occur; transport status codes are `Int`;
- the global dispatcher registry (`xlinkd`) together with the id counter of
  `event_generate_id` form one explicit `global_state` record that is
  threaded through the stateful operations;
- external collaborators (the transport's `xlink_platform_write` /
  `xlink_platform_read`, the multiplexer's `xlink_multiplexer_rx`, the
  lookup `get_interface_from_sw_device_id`) are modelled as oracle
  parameters: each call site receives the collaborator's result (status
  code and the value written back through the size pointer / buffer) as an
  argument, and every transport side effect performed by the dispatcher is
  recorded in an explicit trace.
-/

namespace XlinkDispatcher

/-- Modulus of the C `uint32_t` type. -/
def UINT32_MOD : Nat := 2 ^ 32

/-- Modelled from the spec: `XLINK_MAX_CONNECTIONS` comes from the header
`xlink-defs.h`, which is absent from the sources; the spec only says the
number of links is fixed and known at init.  The claims do not depend on the
concrete value. -/
def XLINK_MAX_CONNECTIONS : Nat := 16

/-- Modelled from the spec: the fixed magic sentinel
`XLINK_EVENT_HEADER_MAGIC` of `xlink-defs.h` (absent from the sources).  The
claims only compare headers against it, so the concrete value is immaterial. -/
def XLINK_EVENT_HEADER_MAGIC : Nat := 0x786c6e6b

/-- Modelled from the spec: the invalid-id sentinel `XLINK_INVALID_EVENT_ID`
of `xlink-defs.h` (absent from the sources). -/
def XLINK_INVALID_EVENT_ID : Nat := 0xdeadbeef

/-- Modelled from the spec: `XLINK_EVENT_QUEUE_CAPACITY` of `xlink-defs.h`
(absent from the sources); section 8 of the spec describes the passthrough
admission queue as having capacity 100. -/
def XLINK_EVENT_QUEUE_CAPACITY : Nat := 100

/-- Modelled from the spec: `sizeof(struct xlink_event_header)` in bytes.
The struct layout lives in `xlink-defs.h`, absent from the sources; only the
difference `sizeof_xlink_event_header - XLINK_MAX_CONTROL_DATA_PCIE_SIZE`
(the core wire header size) appears in the dispatcher, and the claims treat
it symbolically. -/
def sizeof_xlink_event_header : Nat := 144

/-- Modelled from the spec: `XLINK_MAX_CONTROL_DATA_PCIE_SIZE` of
`xlink-defs.h` (absent from the sources): the transport-specific trailing
control-data region excluded from header transfers. -/
def XLINK_MAX_CONTROL_DATA_PCIE_SIZE : Nat := 100

/-- The core wire size of a header transfer:
`sizeof(event->header) - XLINK_MAX_CONTROL_DATA_PCIE_SIZE`, as computed at
the top of `dispatcher_event_send` and in the RX thread. -/
def event_header_wire_size : Nat :=
  sizeof_xlink_event_header - XLINK_MAX_CONTROL_DATA_PCIE_SIZE

/-- Embedding of `enum xlink_error` (restricted to the constants the dispatcher uses). -/
inductive xlink_error where
  | X_LINK_SUCCESS
  | X_LINK_ERROR
  deriving DecidableEq, Repr

export xlink_error (X_LINK_SUCCESS X_LINK_ERROR)

/-- Embedding of `enum dispatcher_state` of xlink-dispatcher.c. -/
inductive dispatcher_state where
  | XLINK_DISPATCHER_INIT
  | XLINK_DISPATCHER_RUNNING
  | XLINK_DISPATCHER_STOPPED
  | XLINK_DISPATCHER_ERROR
  deriving DecidableEq, Repr

export dispatcher_state (XLINK_DISPATCHER_INIT XLINK_DISPATCHER_RUNNING
  XLINK_DISPATCHER_STOPPED XLINK_DISPATCHER_ERROR)

/-- Embedding of `enum xlink_event_origin`. -/
inductive xlink_event_origin where
  | EVENT_TX
  | EVENT_RX
  deriving DecidableEq, Repr

export xlink_event_origin (EVENT_TX EVENT_RX)

/-- Embedding of `enum xlink_event_type`, restricted to the constructors the dispatcher
mentions, plus a catch-all for the remaining request types (the full list
lives in the absent header `xlink-defs.h`).  `XLINK_WRITE_REQ` is the enum's
first value (the C literal `0` used by the RX thread's `xlink_create_event`
calls). -/
inductive xlink_event_type where
  | XLINK_WRITE_REQ
  | XLINK_WRITE_VOLATILE_REQ
  | XLINK_PASSTHRU_WRITE_REQ
  | XLINK_PASSTHRU_VOLATILE_WRITE_REQ
  | XLINK_WRITE_CONTROL_REQ
  | XLINK_PASSTHRU_READ_TO_BUFFER_REQ
  | XLINK_PASSTHRU_READ_REQ
  | XLINK_OTHER_REQ (n : Nat)
  deriving DecidableEq, Repr

export xlink_event_type (XLINK_WRITE_REQ XLINK_WRITE_VOLATILE_REQ
  XLINK_PASSTHRU_WRITE_REQ XLINK_PASSTHRU_VOLATILE_WRITE_REQ
  XLINK_WRITE_CONTROL_REQ XLINK_PASSTHRU_READ_TO_BUFFER_REQ
  XLINK_PASSTHRU_READ_REQ)

/-- Embedding of `enum xlink_memory_type` values used by the dispatcher's deallocation
calls. -/
inductive xlink_memory_type where
  | XLINK_CMA_MEMORY
  | XLINK_NORMAL_MEMORY
  deriving DecidableEq, Repr

export xlink_memory_type (XLINK_CMA_MEMORY XLINK_NORMAL_MEMORY)

/-- Embedding of `struct xlink_handle`, reduced to the only field the dispatcher reads. -/
structure xlink_handle where
  sw_device_id : Nat
  deriving DecidableEq, Repr

/-- The wire header `struct xlink_event_header` (fields used by the
dispatcher). -/
structure xlink_event_header where
  magic : Nat
  id : Nat
  type : xlink_event_type
  chan : Nat
  size : Nat
  timeout : Nat
  deriving DecidableEq, Repr

/-- Embedding of `struct xlink_event` (fields used by the dispatcher).  `handle` carries
the device identity; `data` and `paddr` model the payload pointer and its
recorded physical address as opaque numbers (`data`/`paddr = 0` is the null
pointer / no recorded physical address). -/
structure xlink_event where
  link_id : Nat
  origin : xlink_event_origin
  handle : xlink_handle
  interface : Int
  user_data : Nat
  data : Nat
  paddr : Nat
  header : xlink_event_header
  deriving DecidableEq, Repr

/-- Embedding of `struct event_queue`: `count` is the C `uint32_t` occupancy counter and
`head` the linked list of queued events (head of the list = head of the
FIFO). -/
structure event_queue where
  count : Nat
  capacity : Nat
  head : List xlink_event
  deriving DecidableEq, Repr

/-- Embedding of `struct dispatcher` (fields relevant to the embedding; thread handles,
semaphores, completions and mutexes are concurrency plumbing with no
sequential content). -/
structure dispatcher where
  link_id : Nat
  state : dispatcher_state
  handle : Option xlink_handle
  interface : Int
  queue : event_queue
  buff_queue : event_queue
  deriving DecidableEq, Repr

/-- The global state of the translation unit: the registry `xlinkd`
(`none` models the C null pointer before `xlink_dispatcher_init`; the list
is the fixed array `xlinkd->dispatchers`) and the static counter inside
`event_generate_id`. -/
structure global_state where
  xlinkd : Option (List dispatcher)
  next_id : Nat
  deriving DecidableEq, Repr

/-- Embedding of `get_dispatcher_by_id`: null registry and out-of-range ids yield NULL;
otherwise the slot with that index. -/
def get_dispatcher_by_id (st : global_state) (id : Nat) : Option dispatcher :=
  match st.xlinkd with
  | none => none
  | some ds =>
    if XLINK_MAX_CONNECTIONS ≤ id then none
    else ds[id]?

/-- Write dispatcher slot `id` back into the registry (the C code mutates
the slot in place through the pointer returned by `get_dispatcher_by_id`). -/
def set_dispatcher (st : global_state) (id : Nat) (d : dispatcher) : global_state :=
  match st.xlinkd with
  | none => st
  | some ds => { st with xlinkd := some (ds.set id d) }

/-- Embedding of `event_dequeue_buffer`: pop the first list entry if any, decrementing
`count` (a `uint32_t` decrement); on an empty list return NULL and leave the
queue untouched. -/
def event_dequeue_buffer (queue : event_queue) : Option xlink_event × event_queue :=
  match queue.head with
  | [] => (none, queue)
  | event :: rest =>
    (some event,
     { queue with head := rest, count := (queue.count + (UINT32_MOD - 1)) % UINT32_MOD })

/-- Embedding of `event_enqueue_buffer`: unconditionally append at the tail, increment
`count` (a `uint32_t` increment) and return 0. -/
def event_enqueue_buffer (queue : event_queue) (event : xlink_event) :
    Int × event_queue :=
  (0, { queue with head := queue.head ++ [event],
                   count := (queue.count + 1) % UINT32_MOD })

/-- Embedding of `event_generate_id`: `return id++` on a static `uint32_t` starting at
0xa; the counter lives in `global_state.next_id`. -/
def event_generate_id (st : global_state) : Nat × global_state :=
  (st.next_id % UINT32_MOD, { st with next_id := (st.next_id + 1) % UINT32_MOD })

/-- Embedding of `event_dequeue` (same body as `event_dequeue_buffer`). -/
def event_dequeue (queue : event_queue) : Option xlink_event × event_queue :=
  match queue.head with
  | [] => (none, queue)
  | event :: rest =>
    (some event,
     { queue with head := rest, count := (queue.count + (UINT32_MOD - 1)) % UINT32_MOD })

/-- Embedding of `event_enqueue` (the CONFIG_XLINK_LOCAL_HOST admission-controlled push
used for the ipc passthrough queue): accept, append at the tail and return 0
only while `count < (capacity/10)*7` (C integer division); otherwise return
-1 leaving the queue unchanged. -/
def event_enqueue (queue : event_queue) (event : xlink_event) :
    Int × event_queue :=
  if queue.count < (queue.capacity / 10) * 7 then
    (0, { queue with head := queue.head ++ [event],
                     count := (queue.count + 1) % UINT32_MOD })
  else
    (-1, queue)

/-- Embedding of `alloc_event`: look the dispatcher up by link id, then pop one event
from its buffer pool; NULL when the dispatcher is absent or the pool is
empty.  Returns the popped event together with the updated global state. -/
def alloc_event (st : global_state) (link_id : Nat) :
    Option xlink_event × global_state :=
  match get_dispatcher_by_id st link_id with
  | none => (none, st)
  | some disp =>
    match event_dequeue_buffer disp.buff_queue with
    | (none, _) => (none, st)
    | (some new_event, bq) =>
      (some new_event, set_dispatcher st link_id { disp with buff_queue := bq })

/-- Embedding of `free_event`: look the dispatcher up by the event's `link_id`; silently
return (state unchanged) when NULL, otherwise push the event onto that
link's buffer pool. -/
def free_event (st : global_state) (event : xlink_event) : global_state :=
  match get_dispatcher_by_id st event.link_id with
  | none => st
  | some disp =>
    set_dispatcher st event.link_id
      { disp with buff_queue := (event_enqueue_buffer disp.buff_queue event).2 }

/-- Embedding of `is_valid_event_header`: 1 iff the header magic equals the sentinel. -/
def is_valid_event_header (event : xlink_event) : Int :=
  if event.header.magic ≠ XLINK_EVENT_HEADER_MAGIC then 0 else 1

/-- Embedding of `xlink_create_event`: allocate from the link's pool and populate header
and bookkeeping fields.  `gifsdi` is the external collaborator
`get_interface_from_sw_device_id`. -/
def xlink_create_event (gifsdi : Nat → Int) (st : global_state) (link_id : Nat)
    (type : xlink_event_type) (handle : xlink_handle) (chan : Nat)
    (size : Nat) (timeout : Nat) : Option (xlink_event × global_state) :=
  match alloc_event st link_id with
  | (none, _) => none
  | (some new_event, st1) =>
    some ({ new_event with
              link_id := link_id,
              handle := handle,
              interface := gifsdi handle.sw_device_id,
              user_data := 0,
              header := { magic := XLINK_EVENT_HEADER_MAGIC,
                          id := XLINK_INVALID_EVENT_ID,
                          type := type, chan := chan,
                          size := size, timeout := timeout } }, st1)

/-- Embedding of `xlink_destroy_event` is exactly `free_event`. -/
def xlink_destroy_event (st : global_state) (event : xlink_event) : global_state :=
  free_event st event

/-- Result that an `xlink_platform_write` / `xlink_platform_read` oracle
reports back to the dispatcher: the status code `rc` and the value the
transport stores through the `size` pointer. -/
structure write_result where
  rc : Int
  out_size : Nat
  deriving DecidableEq, Repr

/-- One recorded call to `xlink_platform_write`: whether the buffer argument
was the event's `data` payload pointer (`true`) or `&event->header`
(`false`), and the transfer length requested through the size pointer. -/
structure platform_write_call where
  buffer_is_data : Bool
  req_size : Nat
  timeout : Nat
  deriving DecidableEq, Repr

/-- One recorded call to `xlink_platform_deallocate`. -/
structure dealloc_call where
  data : Nat
  paddr : Nat
  size : Nat
  memory : xlink_memory_type
  deriving DecidableEq, Repr

/-- The transport side effects performed by a dispatcher operation, in
order. -/
structure send_trace where
  writes : List platform_write_call
  deallocs : List dealloc_call
  deriving DecidableEq, Repr

/-- The empty trace (no transport interaction). -/
def send_trace.empty : send_trace := { writes := [], deallocs := [] }

/-- The condition of xlink-dispatcher.c lines 257-260: the four
write-variant request types that carry a payload written as a second
transport transfer. -/
def is_write_variant_type (t : xlink_event_type) : Bool :=
  t = XLINK_WRITE_REQ ∨ t = XLINK_WRITE_VOLATILE_REQ ∨
    t = XLINK_PASSTHRU_VOLATILE_WRITE_REQ ∨ t = XLINK_PASSTHRU_WRITE_REQ

/-- The header transfer size computed at the top of `dispatcher_event_send`
(lines 234-246): the core wire header size, plus the declared payload size
exactly when the event type is `XLINK_WRITE_CONTROL_REQ`. -/
def header_transfer_size (event : xlink_event) : Nat :=
  if event.header.type = XLINK_WRITE_CONTROL_REQ then
    event_header_wire_size + event.header.size
  else event_header_wire_size

/-- Embedding of `dispatcher_event_send`.  `hdr_res` and `data_res` are the transport
oracle's answers for the header write and the (possible) data write.
Returns the status code, the trace of transport calls and the event as left
by the call (the data write stores the transferred length back through
`&event->header.size`). -/
def dispatcher_event_send (hdr_res data_res : write_result)
    (event : xlink_event) : Int × send_trace × xlink_event :=
  let transfer_size := header_transfer_size event
  let w1 : platform_write_call :=
    { buffer_is_data := false, req_size := transfer_size,
      timeout := event.header.timeout }
  if hdr_res.rc ≠ 0 ∨ hdr_res.out_size ≠ transfer_size then
    (hdr_res.rc, { writes := [w1], deallocs := [] }, event)
  else if is_write_variant_type event.header.type then
    let w2 : platform_write_call :=
      { buffer_is_data := true, req_size := event.header.size,
        timeout := event.header.timeout }
    let event2 :=
      { event with header := { event.header with size := data_res.out_size } }
    let deallocs :=
      if event.user_data = 1 then
        if event.paddr ≠ 0 then
          [{ data := event2.data, paddr := event2.paddr,
             size := event2.header.size,
             memory := XLINK_CMA_MEMORY : dealloc_call }]
        else
          [{ data := event2.data, paddr := event2.paddr,
             size := event2.header.size,
             memory := XLINK_NORMAL_MEMORY : dealloc_call }]
      else []
    (data_res.rc, { writes := [w1, w2], deallocs := deallocs }, event2)
  else
    (hdr_res.rc, { writes := [w1], deallocs := [] }, event)

/-- Embedding of `xlink_dispatcher_event_add` (submit).  Looks the dispatcher up by the
event's `link_id`, rejects unless it is RUNNING, assigns a fresh id to
TX-originated events, sends synchronously and destroys the event.  Returns
the status, the new global state and the trace of transport calls. -/
def xlink_dispatcher_event_add (origin : xlink_event_origin)
    (event : xlink_event) (hdr_res data_res : write_result)
    (st : global_state) : xlink_error × global_state × send_trace :=
  match get_dispatcher_by_id st event.link_id with
  | none => (X_LINK_ERROR, st, send_trace.empty)
  | some disp =>
    if disp.state ≠ XLINK_DISPATCHER_RUNNING then
      (X_LINK_ERROR, st, send_trace.empty)
    else
      let (new_id, st1) :=
        if origin = EVENT_TX then event_generate_id st
        else (event.header.id, st)
      let event1 :=
        { event with header := { event.header with id := new_id },
                     origin := origin }
      let (_, trace, event2) := dispatcher_event_send hdr_res data_res event1
      let st2 := xlink_destroy_event st1 event2
      (X_LINK_SUCCESS, st2, trace)

/-- Embedding of `xlink_dispatcher_start` (as compiled without CONFIG_XLINK_LOCAL_HOST;
the ipc passthrough singleton is modelled separately).  `tx_spawn_ok` /
`rx_spawn_ok` are the `kthread_run` oracle answers (false models a NULL
task).  The returned Bool records whether `kthread_stop` was invoked on the
TX worker (the `r_rxthread` unwind path). -/
def xlink_dispatcher_start (id : Nat) (handle : xlink_handle)
    (gifsdi : Nat → Int) (tx_spawn_ok rx_spawn_ok : Bool)
    (st : global_state) : xlink_error × global_state × Bool :=
  match get_dispatcher_by_id st id with
  | none => (X_LINK_ERROR, st, false)
  | some disp =>
    if disp.state = XLINK_DISPATCHER_RUNNING ∨
        disp.state = XLINK_DISPATCHER_ERROR then
      (X_LINK_ERROR, st, false)
    else
      let disp1 := { disp with handle := some handle,
                               interface := gifsdi handle.sw_device_id }
      if ¬ tx_spawn_ok then
        (X_LINK_ERROR,
         set_dispatcher st id { disp1 with state := XLINK_DISPATCHER_STOPPED },
         false)
      else
        let disp2 := { disp1 with state := XLINK_DISPATCHER_RUNNING }
        if ¬ rx_spawn_ok then
          (X_LINK_ERROR,
           set_dispatcher st id { disp2 with state := XLINK_DISPATCHER_STOPPED },
           true)
        else
          (X_LINK_SUCCESS, set_dispatcher st id disp2, false)

/-- Answer of the `xlink_platform_read` oracle for one RX header read: the
status code, the length stored back through the size pointer, and the bytes
the transport deposited in the `&event->header` buffer. -/
structure read_result where
  rc : Int
  out_size : Nat
  header_read : xlink_event_header
  deriving DecidableEq, Repr

/-- Outcome of one iteration of the `while (!kthread_should_stop())` body of
`xlink_dispatcher_rxthread`.  `event` is the buffer the thread holds for the
next read (`none` models the `return -1` exit on pool exhaustion);
`forwarded` is the event passed to `xlink_multiplexer_rx` when that call was
made; `recycled` records whether a replacement event was taken from the
pool. -/
structure rx_step_out where
  event : Option xlink_event
  st : global_state
  forwarded : Option xlink_event
  recycled : Bool
  deriving Repr

/-- One iteration of the RX worker loop of `xlink_dispatcher_rxthread`.
`read_res` is the transport oracle's answer for this iteration's header
read, `mux_rc` the status `xlink_multiplexer_rx` returns if it is called.
The read deposits `read_res.header_read` in the event's header buffer; a
failed or short read, and a header whose magic is invalid, are dropped with
the same buffer kept for the next read.  On a valid header the event is
stamped with the dispatcher's link id and handed to the multiplexer; only a
zero multiplexer status makes the loop take a replacement event from the
pool (via `xlink_create_event` with type 0, i.e. `XLINK_WRITE_REQ`). -/
def xlink_dispatcher_rxthread_step (disp_link_id : Nat)
    (disp_handle : xlink_handle) (gifsdi : Nat → Int)
    (read_res : read_result) (mux_rc : Int) (event : xlink_event)
    (st : global_state) : rx_step_out :=
  let event1 := { event with header := read_res.header_read }
  if read_res.rc ≠ 0 ∨ read_res.out_size ≠ event_header_wire_size then
    { event := some event1, st := st, forwarded := none, recycled := false }
  else if is_valid_event_header event1 = 1 then
    let event2 := { event1 with link_id := disp_link_id }
    if mux_rc = 0 then
      match xlink_create_event gifsdi st disp_link_id XLINK_WRITE_REQ
          disp_handle 0 0 0 with
      | some (fresh, st1) =>
        { event := some fresh, st := st1, forwarded := some event2,
          recycled := true }
      | none =>
        { event := none, st := st, forwarded := some event2,
          recycled := false }
    else
      { event := some event2, st := st, forwarded := some event2,
        recycled := false }
  else
    { event := some event1, st := st, forwarded := none, recycled := false }

/-!
Concrete fixture states used to instantiate the witness theorems.
-/

/-- A zero-filled pooled event, as `kzalloc` in `init_buffers` produces. -/
def blank_event : xlink_event :=
  { link_id := 0, origin := EVENT_TX, handle := { sw_device_id := 0 },
    interface := 0, user_data := 0, data := 0, paddr := 0,
    header := { magic := 0, id := 0, type := XLINK_WRITE_REQ, chan := 0,
                size := 0, timeout := 0 } }

/-- A concrete TX write event on link 0. -/
def sample_event : xlink_event :=
  { link_id := 0, origin := EVENT_TX, handle := { sw_device_id := 7 },
    interface := 1, user_data := 0, data := 0, paddr := 0,
    header := { magic := XLINK_EVENT_HEADER_MAGIC,
                id := XLINK_INVALID_EVENT_ID, type := XLINK_WRITE_REQ,
                chan := 3, size := 4, timeout := 500 } }

/-- An empty pending-send queue at the capacity of `xlink_dispatcher_init`. -/
def empty_queue : event_queue :=
  { count := 0, capacity := XLINK_EVENT_QUEUE_CAPACITY, head := [] }

/-- A buffer pool holding one pre-allocated event. -/
def pool_queue : event_queue :=
  { count := 1, capacity := 1024, head := [blank_event] }

/-- Dispatcher slot 0 as `xlink_dispatcher_init` leaves it. -/
def init_disp : dispatcher :=
  { link_id := 0, state := XLINK_DISPATCHER_INIT, handle := none,
    interface := 0, queue := empty_queue, buff_queue := pool_queue }

/-- Dispatcher slot 0 after a successful `xlink_dispatcher_start`. -/
def running_disp : dispatcher :=
  { init_disp with state := XLINK_DISPATCHER_RUNNING,
                   handle := some { sw_device_id := 7 }, interface := 1 }

/-- Dispatcher slot 0 after a successful `xlink_dispatcher_stop`. -/
def stopped_disp : dispatcher :=
  { init_disp with state := XLINK_DISPATCHER_STOPPED }

/-- Global state whose only populated slot is in INIT. -/
def st_init : global_state := { xlinkd := some [init_disp], next_id := 0xa }

/-- Global state whose only populated slot is RUNNING. -/
def st_running : global_state :=
  { xlinkd := some [running_disp], next_id := 0xa }

/-- Global state whose only populated slot is STOPPED. -/
def st_stopped : global_state :=
  { xlinkd := some [stopped_disp], next_id := 0xa }

/-- A concrete interface-lookup collaborator. -/
def gifsdi0 : Nat → Int := fun _ => 1

/-- The event and state produced by a concrete successful
`xlink_create_event` call on `st_init`. -/
def created_pair : xlink_event × global_state :=
  (xlink_create_event gifsdi0 st_init 0 XLINK_WRITE_REQ
      { sw_device_id := 7 } 3 4 500).getD (blank_event, st_init)

/-- A passthrough admission queue of capacity 100 filled to occupancy 70. -/
def q70 : event_queue :=
  { count := 70, capacity := 100, head := List.replicate 70 blank_event }

/-- A queue holding a single event (with `count` matching). -/
def q1 : event_queue :=
  { count := 1, capacity := 100, head := [blank_event] }

/-- Variant of `sample_event` with the control-write type instead. -/
def sample_control_event : xlink_event :=
  { sample_event with
      header := { sample_event.header with type := XLINK_WRITE_CONTROL_REQ } }

/-- Variant of `sample_event` with a subsystem-owned payload (`user_data = 1`) and no
recorded physical address. -/
def sample_owned_event : xlink_event :=
  { sample_event with user_data := 1, data := 5 }

/-!
Helper lemmas shared by the claim theorems.
-/

theorem get_dispatcher_by_id_next_id (st : global_state) (n : Nat) (id : Nat) :
    get_dispatcher_by_id { st with next_id := n } id =
      get_dispatcher_by_id st id := rfl

theorem get_set_dispatcher_self {st : global_state} {id : Nat}
    {d : dispatcher} (d' : dispatcher)
    (h : get_dispatcher_by_id st id = some d) :
    get_dispatcher_by_id (set_dispatcher st id d') id = some d' := by
  rcases hx : st.xlinkd with _ | ds
  · simp [get_dispatcher_by_id, hx] at h
  · by_cases hle : XLINK_MAX_CONNECTIONS ≤ id
    · simp [get_dispatcher_by_id, hx, hle] at h
    · simp only [get_dispatcher_by_id, set_dispatcher, hx, if_neg hle] at h ⊢
      have hlt : id < ds.length := by
        by_contra hge
        push_neg at hge
        rw [List.getElem?_eq_none hge] at h
        exact Option.noConfusion h
      rw [List.getElem?_set_eq_of_lt d' hlt]

theorem dispatcher_event_send_preserves (hdr_res data_res : write_result)
    (event : xlink_event) :
    ((dispatcher_event_send hdr_res data_res event).2.2).link_id =
        event.link_id ∧
      ((dispatcher_event_send hdr_res data_res event).2.2).origin =
        event.origin := by
  unfold dispatcher_event_send
  dsimp only
  split_ifs <;> exact ⟨rfl, rfl⟩

theorem destroy_after_send_pool (st1 : global_state) (ev1 : xlink_event)
    (d : dispatcher) (hdr_res data_res : write_result)
    (hget : get_dispatcher_by_id st1 ev1.link_id = some d) :
    get_dispatcher_by_id
        (xlink_destroy_event st1
          (dispatcher_event_send hdr_res data_res ev1).2.2) ev1.link_id =
      some { d with
               buff_queue :=
                 (event_enqueue_buffer d.buff_queue
                   (dispatcher_event_send hdr_res data_res ev1).2.2).2 } := by
  have hlink := (dispatcher_event_send_preserves hdr_res data_res ev1).1
  have hget2 : get_dispatcher_by_id st1
      ((dispatcher_event_send hdr_res data_res ev1).2.2).link_id = some d := by
    rw [hlink]; exact hget
  simp only [xlink_destroy_event, free_event, hget2]
  rw [← hlink]
  exact get_set_dispatcher_self _ hget2

/-!
Claim theorems.
-/

/-- C1: for every origin and event, `xlink_dispatcher_event_add` returns an
error, performs no transport write (and no deallocation), and leaves the
whole global state — in particular the selected dispatcher — unchanged,
whenever the dispatcher selected by `event->link_id` is absent
(`get_dispatcher_by_id` returns null) or is not in the RUNNING state.  The
event itself is untouched: the rejected call emits no modified event. -/
theorem submit_rejected_unless_running (origin : xlink_event_origin)
    (event : xlink_event) (hdr_res data_res : write_result)
    (st : global_state)
    (h : get_dispatcher_by_id st event.link_id = none ∨
         ∃ d, get_dispatcher_by_id st event.link_id = some d ∧
              d.state ≠ XLINK_DISPATCHER_RUNNING) :
    xlink_dispatcher_event_add origin event hdr_res data_res st =
      (X_LINK_ERROR, st, send_trace.empty) := by
  rcases h with h | ⟨d, hd, hstate⟩
  · simp [xlink_dispatcher_event_add, h]
  · simp [xlink_dispatcher_event_add, hd, hstate]

/-- Witness for C1 at a concrete input: a dispatcher still in INIT rejects
the submit and changes nothing. -/
theorem submit_rejected_unless_running_witness :
    xlink_dispatcher_event_add EVENT_TX sample_event
        { rc := 0, out_size := 44 } { rc := 0, out_size := 4 } st_init =
      (X_LINK_ERROR, st_init, send_trace.empty) :=
  submit_rejected_unless_running EVENT_TX sample_event
    { rc := 0, out_size := 44 } { rc := 0, out_size := 4 } st_init
    (Or.inr ⟨init_disp, by decide, by decide⟩)

/-- C10: `xlink_destroy_event` / `free_event` on an event whose `link_id`
selects no registered dispatcher (registry null or id out of range) silently
returns: the lookup yields null, no buffer pool is touched and the global
state is returned unchanged (the function has no error return at all). -/
theorem free_event_unregistered_silent (st : global_state)
    (event : xlink_event)
    (h : st.xlinkd = none ∨ XLINK_MAX_CONNECTIONS ≤ event.link_id) :
    get_dispatcher_by_id st event.link_id = none ∧
      free_event st event = st ∧ xlink_destroy_event st event = st := by
  have hget : get_dispatcher_by_id st event.link_id = none := by
    rcases h with h | h
    · simp [get_dispatcher_by_id, h]
    · rcases hx : st.xlinkd with _ | ds <;>
        simp [get_dispatcher_by_id, hx, h]
  refine ⟨hget, ?_, ?_⟩ <;> simp [free_event, xlink_destroy_event, hget]

/-- Witness for C10 at a concrete input: destroying an event before
`xlink_dispatcher_init` (null registry) is a silent no-op. -/
theorem free_event_unregistered_silent_witness :
    get_dispatcher_by_id { xlinkd := none, next_id := 0xa } sample_event.link_id = none ∧
      free_event { xlinkd := none, next_id := 0xa } sample_event =
        { xlinkd := none, next_id := 0xa } ∧
      xlink_destroy_event { xlinkd := none, next_id := 0xa } sample_event =
        { xlinkd := none, next_id := 0xa } :=
  free_event_unregistered_silent { xlinkd := none, next_id := 0xa }
    sample_event (Or.inl rfl)

/-- C9: every successful `xlink_create_event`, whatever the type, channel,
size and timeout arguments, yields an event whose header magic is the fixed
sentinel (so `is_valid_event_header` accepts it), whose header id is the
invalid-id sentinel `XLINK_INVALID_EVENT_ID`, and whose `user_data` is reset
to 0. -/
theorem create_event_header_defaults (gifsdi : Nat → Int) (st : global_state)
    (link_id : Nat) (type : xlink_event_type) (handle : xlink_handle)
    (chan size timeout : Nat) (ev : xlink_event) (st1 : global_state)
    (h : xlink_create_event gifsdi st link_id type handle chan size timeout =
          some (ev, st1)) :
    ev.header.magic = XLINK_EVENT_HEADER_MAGIC ∧
      ev.header.id = XLINK_INVALID_EVENT_ID ∧
      ev.user_data = 0 ∧ is_valid_event_header ev = 1 := by
  rcases ha : alloc_event st link_id with ⟨_ | e, st'⟩
  · simp [xlink_create_event, ha] at h
  · simp only [xlink_create_event, ha] at h
    obtain ⟨hev, _⟩ := Prod.mk.injEq .. ▸ Option.some.injEq .. ▸ h
    subst hev
    simp [is_valid_event_header]

/-- Witness for C9 at a concrete input. -/
theorem create_event_header_defaults_witness :
    created_pair.1.header.magic = XLINK_EVENT_HEADER_MAGIC ∧
      created_pair.1.header.id = XLINK_INVALID_EVENT_ID ∧
      created_pair.1.user_data = 0 ∧ is_valid_event_header created_pair.1 = 1 :=
  create_event_header_defaults gifsdi0 st_init 0 XLINK_WRITE_REQ
    { sw_device_id := 7 } 3 4 500 created_pair.1 created_pair.2 (by decide)

/-- C6: the admission-controlled `event_enqueue` used for the ipc
passthrough queue, on a queue of capacity 100 (the spec's capacity for this
queue), accepts a push and appends at the tail exactly while the occupancy
is below 70, and rejects every push at occupancy ≥ 70 leaving the queue
unchanged. -/
theorem ipc_enqueue_admission_threshold (q : event_queue) (e : xlink_event)
    (hcap : q.capacity = 100) :
    ((event_enqueue q e).1 = 0 ↔ q.count < 70) ∧
      (70 ≤ q.count → event_enqueue q e = (-1, q)) ∧
      (q.count < 70 →
        event_enqueue q e =
          (0, { q with head := q.head ++ [e],
                       count := (q.count + 1) % UINT32_MOD })) := by
  have h70 : (q.capacity / 10) * 7 = 70 := by rw [hcap]
  refine ⟨?_, ?_, ?_⟩
  · by_cases hlt : q.count < 70 <;> simp [event_enqueue, h70, hlt]
  · intro hge
    have hnlt : ¬ q.count < 70 := by omega
    simp [event_enqueue, h70, hnlt]
  · intro hlt
    simp [event_enqueue, h70, hlt]

/-- Witness for C6 at a concrete input: the queue filled to exactly 70
rejects the next push unchanged. -/
theorem ipc_enqueue_admission_threshold_witness :
    ((event_enqueue q70 sample_event).1 = 0 ↔ q70.count < 70) ∧
      (70 ≤ q70.count → event_enqueue q70 sample_event = (-1, q70)) ∧
      (q70.count < 70 →
        event_enqueue q70 sample_event =
          (0, { q70 with head := q70.head ++ [sample_event],
                         count := (q70.count + 1) % UINT32_MOD })) :=
  ipc_enqueue_admission_threshold q70 sample_event rfl

/-- C8: the buffer-pool enqueue always succeeds, appending one event at the
tail and (absent `uint32_t` overflow) incrementing `count` so that the
invariant `count = length of list` is preserved; `event_dequeue` and
`event_dequeue_buffer` on a non-empty queue remove the head event and
decrement `count` by one, and on an empty queue return null without touching
count or list. -/
theorem queue_ops_preserve_count_invariant (q : event_queue) (e : xlink_event) :
    ((event_enqueue_buffer q e).1 = 0 ∧
      (event_enqueue_buffer q e).2.head = q.head ++ [e]) ∧
    (q.count = q.head.length → q.head.length + 1 < UINT32_MOD →
      (event_enqueue_buffer q e).2.count =
        (event_enqueue_buffer q e).2.head.length) ∧
    (q.head = [] → event_dequeue q = (none, q) ∧
      event_dequeue_buffer q = (none, q)) ∧
    (∀ x xs, q.head = x :: xs → q.count = q.head.length →
      q.head.length < UINT32_MOD →
      event_dequeue q = (some x, { q with head := xs, count := xs.length }) ∧
      event_dequeue_buffer q =
        (some x, { q with head := xs, count := xs.length })) := by
  refine ⟨⟨?_, ?_⟩, ?_, ?_, ?_⟩
  · simp [event_enqueue_buffer]
  · simp [event_enqueue_buffer]
  · intro hcount hlt
    simp only [event_enqueue_buffer, List.length_append, List.length_cons,
      List.length_nil]
    rw [hcount]
    exact Nat.mod_eq_of_lt hlt
  · intro hq
    constructor <;> simp [event_dequeue, event_dequeue_buffer, hq]
  · intro x xs hq hcount hlen
    have hxs : xs.length < UINT32_MOD := by
      rw [hq] at hlen; simp at hlen; omega
    have hdec : (q.count + (UINT32_MOD - 1)) % UINT32_MOD = xs.length := by
      rw [hcount, hq]
      simp only [List.length_cons]
      have : xs.length + 1 + (UINT32_MOD - 1) = xs.length + UINT32_MOD := by
        have : 1 ≤ UINT32_MOD := by norm_num [UINT32_MOD]
        omega
      rw [this, Nat.add_mod_right]
      exact Nat.mod_eq_of_lt hxs
    constructor <;> simp [event_dequeue, event_dequeue_buffer, hq, hdec]

/-- Witness for C8 at a concrete input: popping the single-element queue. -/
theorem queue_ops_preserve_count_invariant_witness :
    event_dequeue q1 =
        (some blank_event, { q1 with head := [], count := 0 }) ∧
      event_dequeue_buffer q1 =
        (some blank_event, { q1 with head := [], count := 0 }) :=
  (queue_ops_preserve_count_invariant q1 sample_event).2.2.2 blank_event []
    rfl rfl (by norm_num [q1, UINT32_MOD])

/-- Counterexample to C2: for an ordinary-write event of payload size 4,
`dispatcher_event_send` requests only the fixed wire header size for the
header write — the declared payload size is NOT appended to the header
transfer (the two sizes differ); the size IS appended to the header write
for the control-write type `XLINK_WRITE_CONTROL_REQ`, which is none of the
four write variants and gets no second data write. -/
theorem headerWrite_size_not_appended_for_write_req :
    ((dispatcher_event_send { rc := 0, out_size := event_header_wire_size }
        { rc := 0, out_size := 4 } sample_event).2.1.writes.map
        platform_write_call.req_size = [event_header_wire_size, 4]) ∧
      event_header_wire_size ≠
        event_header_wire_size + sample_event.header.size ∧
      ((dispatcher_event_send
          { rc := 0, out_size := event_header_wire_size + 4 }
          { rc := 0, out_size := 4 } sample_control_event).2.1.writes.map
          platform_write_call.req_size = [event_header_wire_size + 4]) := by
  decide

/-- C2 as amended: when the header write succeeds, the sequence of transport
write lengths issued by `dispatcher_event_send` is: for
`XLINK_WRITE_CONTROL_REQ`, one single write of the wire header size plus the
declared payload size (appended as one contiguous transfer); for exactly the
four write-variant types, the bare wire header followed by a second write of
exactly `size` payload bytes; for every other type, the bare wire header
only. -/
theorem headerWrite_payload_framing (hdr_res data_res : write_result)
    (ev : xlink_event) (hrc : hdr_res.rc = 0)
    (hout : hdr_res.out_size = header_transfer_size ev) :
    (dispatcher_event_send hdr_res data_res ev).2.1.writes.map
        platform_write_call.req_size =
      (if ev.header.type = XLINK_WRITE_CONTROL_REQ then
        [event_header_wire_size + ev.header.size]
      else if is_write_variant_type ev.header.type then
        [event_header_wire_size, ev.header.size]
      else [event_header_wire_size]) := by
  by_cases hc : ev.header.type = XLINK_WRITE_CONTROL_REQ
  · have hw : is_write_variant_type ev.header.type = false := by
      rw [hc]; decide
    have hout' : hdr_res.out_size = event_header_wire_size + ev.header.size := by
      rw [hout, header_transfer_size, if_pos hc]
    have hwc : is_write_variant_type XLINK_WRITE_CONTROL_REQ = false := rfl
    simp [dispatcher_event_send, hrc, hout', hw, hwc, hc, header_transfer_size]
  · have hout' : hdr_res.out_size = event_header_wire_size := by
      rw [hout, header_transfer_size, if_neg hc]
    by_cases hw : is_write_variant_type ev.header.type = true
    · simp [dispatcher_event_send, hrc, hout', hw, hc, header_transfer_size]
    · simp [dispatcher_event_send, hrc, hout', hw, hc, header_transfer_size]

/-- Witness for the amended C2 at a concrete input: an ordinary write of
size 4 produces a header write of the wire size and a data write of 4. -/
theorem headerWrite_payload_framing_witness :
    (dispatcher_event_send { rc := 0, out_size := event_header_wire_size }
        { rc := 0, out_size := 4 } sample_event).2.1.writes.map
        platform_write_call.req_size =
      (if sample_event.header.type = XLINK_WRITE_CONTROL_REQ then
        [event_header_wire_size + sample_event.header.size]
      else if is_write_variant_type sample_event.header.type then
        [event_header_wire_size, sample_event.header.size]
      else [event_header_wire_size]) :=
  headerWrite_payload_framing { rc := 0, out_size := event_header_wire_size }
    { rc := 0, out_size := 4 } sample_event rfl (by decide)

/-- Counterexample to C5: with a subsystem-owned payload (`user_data = 1`),
a successful header write and a FAILED data write (status -1 propagated to
the caller), `dispatcher_event_send` still releases the payload buffer —
the release is not conditional on the data write succeeding. -/
theorem payload_released_despite_failed_data_write :
    (dispatcher_event_send { rc := 0, out_size := event_header_wire_size }
        { rc := -1, out_size := 4 } sample_owned_event).1 = -1 ∧
      (dispatcher_event_send { rc := 0, out_size := event_header_wire_size }
          { rc := -1, out_size := 4 } sample_owned_event).2.1.deallocs =
        [{ data := 5, paddr := 0, size := 4,
           memory := XLINK_NORMAL_MEMORY }] := by
  decide

/-- C5 as amended: after a successful header write, for a write-variant
event the payload buffer is released back to the transport-memory allocator
exactly when `user_data = 1` — regardless of the data write's status — via
the DMA-capable (CMA) path exactly when a non-zero physical address was
recorded, and the conventional path otherwise; no release happens for
non-write-variant events. -/
theorem payload_release_conditions (hdr_res data_res : write_result)
    (ev : xlink_event) (hrc : hdr_res.rc = 0)
    (hout : hdr_res.out_size = header_transfer_size ev) :
    (is_write_variant_type ev.header.type = true → ev.user_data = 1 →
      (dispatcher_event_send hdr_res data_res ev).2.1.deallocs =
        [{ data := ev.data, paddr := ev.paddr, size := data_res.out_size,
           memory := if ev.paddr ≠ 0 then XLINK_CMA_MEMORY
                     else XLINK_NORMAL_MEMORY }]) ∧
    (ev.user_data ≠ 1 →
      (dispatcher_event_send hdr_res data_res ev).2.1.deallocs = []) ∧
    (is_write_variant_type ev.header.type = false →
      (dispatcher_event_send hdr_res data_res ev).2.1.deallocs = []) := by
  have hcond : ¬ (hdr_res.rc ≠ 0 ∨ hdr_res.out_size ≠ header_transfer_size ev) := by
    simp [hrc, hout]
  refine ⟨?_, ?_, ?_⟩
  · intro hw hu
    by_cases hp : ev.paddr ≠ 0 <;>
      simp [dispatcher_event_send, hcond, hw, hu, hp]
  · intro hu
    by_cases hw : is_write_variant_type ev.header.type = true <;>
      simp [dispatcher_event_send, hcond, hw, hu]
  · intro hw
    simp [dispatcher_event_send, hcond, hw]

/-- Witness for the amended C5 at a concrete input: the owned payload of a
write event is released on the conventional path even though the data write
failed. -/
theorem payload_release_conditions_witness :
    (dispatcher_event_send { rc := 0, out_size := event_header_wire_size }
        { rc := -1, out_size := 4 } sample_owned_event).2.1.deallocs =
      [{ data := sample_owned_event.data, paddr := sample_owned_event.paddr,
         size := 4,
         memory := if sample_owned_event.paddr ≠ 0 then XLINK_CMA_MEMORY
                   else XLINK_NORMAL_MEMORY }] :=
  (payload_release_conditions { rc := 0, out_size := event_header_wire_size }
      { rc := -1, out_size := 4 } sample_owned_event rfl (by decide)).1
    (by decide) (by decide)

/-- Counterexample to C3: `xlink_dispatcher_start` also succeeds from the
STOPPED state (the code only rejects RUNNING and ERROR), so "succeeds only
when the dispatcher's state is INIT" is false. -/
theorem start_succeeds_from_stopped :
    stopped_disp.state ≠ XLINK_DISPATCHER_INIT ∧
      get_dispatcher_by_id st_stopped 0 = some stopped_disp ∧
      (xlink_dispatcher_start 0 { sw_device_id := 7 } gifsdi0 true true
          st_stopped).1 = X_LINK_SUCCESS := by
  decide

/-- C3 as amended: `xlink_dispatcher_start` succeeds (leaving the dispatcher
RUNNING) exactly when the dispatcher's state is neither RUNNING nor ERROR
(i.e. INIT or STOPPED) and both worker spawns succeed; from RUNNING or ERROR
the call is rejected with an error and nothing changes.  If the TX spawn
fails the state becomes STOPPED and the call fails; if the RX spawn fails
after TX succeeded, the TX worker is force-stopped (`kthread_stop` is
invoked on it), the state is left STOPPED and the call fails. -/
theorem dispatcher_start_transitions (id : Nat) (handle : xlink_handle)
    (gifsdi : Nat → Int) (tx_spawn_ok rx_spawn_ok : Bool)
    (st : global_state) (d : dispatcher)
    (hd : get_dispatcher_by_id st id = some d) :
    ((xlink_dispatcher_start id handle gifsdi tx_spawn_ok rx_spawn_ok st).1 =
        X_LINK_SUCCESS ↔
      (d.state ≠ XLINK_DISPATCHER_RUNNING ∧ d.state ≠ XLINK_DISPATCHER_ERROR ∧
        tx_spawn_ok = true ∧ rx_spawn_ok = true)) ∧
    ((d.state = XLINK_DISPATCHER_RUNNING ∨ d.state = XLINK_DISPATCHER_ERROR) →
      xlink_dispatcher_start id handle gifsdi tx_spawn_ok rx_spawn_ok st =
        (X_LINK_ERROR, st, false)) ∧
    (d.state ≠ XLINK_DISPATCHER_RUNNING → d.state ≠ XLINK_DISPATCHER_ERROR →
      tx_spawn_ok = true → rx_spawn_ok = true →
      ∃ d', get_dispatcher_by_id
          (xlink_dispatcher_start id handle gifsdi tx_spawn_ok rx_spawn_ok
            st).2.1 id = some d' ∧
        d'.state = XLINK_DISPATCHER_RUNNING) ∧
    (d.state ≠ XLINK_DISPATCHER_RUNNING → d.state ≠ XLINK_DISPATCHER_ERROR →
      tx_spawn_ok = false →
      (xlink_dispatcher_start id handle gifsdi tx_spawn_ok rx_spawn_ok st).1 =
          X_LINK_ERROR ∧
        ∃ d', get_dispatcher_by_id
            (xlink_dispatcher_start id handle gifsdi tx_spawn_ok rx_spawn_ok
              st).2.1 id = some d' ∧
          d'.state = XLINK_DISPATCHER_STOPPED) ∧
    (d.state ≠ XLINK_DISPATCHER_RUNNING → d.state ≠ XLINK_DISPATCHER_ERROR →
      tx_spawn_ok = true → rx_spawn_ok = false →
      (xlink_dispatcher_start id handle gifsdi tx_spawn_ok rx_spawn_ok st).1 =
          X_LINK_ERROR ∧
        (xlink_dispatcher_start id handle gifsdi tx_spawn_ok rx_spawn_ok
            st).2.2 = true ∧
        ∃ d', get_dispatcher_by_id
            (xlink_dispatcher_start id handle gifsdi tx_spawn_ok rx_spawn_ok
              st).2.1 id = some d' ∧
          d'.state = XLINK_DISPATCHER_STOPPED) := by
  refine ⟨?_, ?_, ?_, ?_, ?_⟩
  · by_cases h1 : d.state = XLINK_DISPATCHER_RUNNING <;>
      by_cases h2 : d.state = XLINK_DISPATCHER_ERROR <;>
      cases tx_spawn_ok <;> cases rx_spawn_ok <;>
      simp [xlink_dispatcher_start, hd, h1, h2]
  · intro hre
    rcases hre with h | h <;> simp [xlink_dispatcher_start, hd, h]
  · intro h1 h2 htx hrx
    subst htx
    subst hrx
    have hcond : ¬ (d.state = XLINK_DISPATCHER_RUNNING ∨
        d.state = XLINK_DISPATCHER_ERROR) := by simp [h1, h2]
    simp only [xlink_dispatcher_start, hd, if_neg hcond, Bool.not_true,
      not_true, ite_false, if_false, Bool.false_eq_true, not_false_eq_true,
      not_true_eq_false, if_neg]
    exact ⟨_, get_set_dispatcher_self _ hd, rfl⟩
  · intro h1 h2 htx
    subst htx
    have hcond : ¬ (d.state = XLINK_DISPATCHER_RUNNING ∨
        d.state = XLINK_DISPATCHER_ERROR) := by simp [h1, h2]
    simp only [xlink_dispatcher_start, hd, if_neg hcond, Bool.not_false,
      not_false_eq_true, ite_true, if_pos]
    exact ⟨rfl, _, get_set_dispatcher_self _ hd, rfl⟩
  · intro h1 h2 htx hrx
    subst htx
    subst hrx
    have hcond : ¬ (d.state = XLINK_DISPATCHER_RUNNING ∨
        d.state = XLINK_DISPATCHER_ERROR) := by simp [h1, h2]
    simp only [xlink_dispatcher_start, hd, if_neg hcond, Bool.not_true,
      Bool.not_false, not_true_eq_false, not_false_eq_true, ite_true,
      ite_false, if_pos, if_neg]
    exact ⟨rfl, rfl, _, get_set_dispatcher_self _ hd, rfl⟩

/-- Witness for the amended C3 at a concrete input: starting from INIT with
both spawns succeeding. -/
theorem dispatcher_start_transitions_witness :
    ((xlink_dispatcher_start 0 { sw_device_id := 7 } gifsdi0 true true
        st_init).1 = X_LINK_SUCCESS ↔
      (init_disp.state ≠ XLINK_DISPATCHER_RUNNING ∧
        init_disp.state ≠ XLINK_DISPATCHER_ERROR ∧
        true = true ∧ true = true)) ∧
    ((init_disp.state = XLINK_DISPATCHER_RUNNING ∨
        init_disp.state = XLINK_DISPATCHER_ERROR) →
      xlink_dispatcher_start 0 { sw_device_id := 7 } gifsdi0 true true
          st_init = (X_LINK_ERROR, st_init, false)) ∧
    (init_disp.state ≠ XLINK_DISPATCHER_RUNNING →
      init_disp.state ≠ XLINK_DISPATCHER_ERROR →
      true = true → true = true →
      ∃ d', get_dispatcher_by_id
          (xlink_dispatcher_start 0 { sw_device_id := 7 } gifsdi0 true true
            st_init).2.1 0 = some d' ∧
        d'.state = XLINK_DISPATCHER_RUNNING) ∧
    (init_disp.state ≠ XLINK_DISPATCHER_RUNNING →
      init_disp.state ≠ XLINK_DISPATCHER_ERROR →
      true = false →
      (xlink_dispatcher_start 0 { sw_device_id := 7 } gifsdi0 true true
          st_init).1 = X_LINK_ERROR ∧
        ∃ d', get_dispatcher_by_id
            (xlink_dispatcher_start 0 { sw_device_id := 7 } gifsdi0 true true
              st_init).2.1 0 = some d' ∧
          d'.state = XLINK_DISPATCHER_STOPPED) ∧
    (init_disp.state ≠ XLINK_DISPATCHER_RUNNING →
      init_disp.state ≠ XLINK_DISPATCHER_ERROR →
      true = true → true = false →
      (xlink_dispatcher_start 0 { sw_device_id := 7 } gifsdi0 true true
          st_init).1 = X_LINK_ERROR ∧
        (xlink_dispatcher_start 0 { sw_device_id := 7 } gifsdi0 true true
            st_init).2.2 = true ∧
        ∃ d', get_dispatcher_by_id
            (xlink_dispatcher_start 0 { sw_device_id := 7 } gifsdi0 true true
              st_init).2.1 0 = some d' ∧
          d'.state = XLINK_DISPATCHER_STOPPED) :=
  dispatcher_start_transitions 0 { sw_device_id := 7 } gifsdi0 true true
    st_init init_disp (by decide)

/-- C4: every event accepted by `xlink_dispatcher_event_add` on a RUNNING
dispatcher is, immediately after the synchronous `dispatcher_event_send`,
destroyed via `free_event`: the sent event (same link id, carrying the
submitted origin) is appended to the buffer pool of its link, and the call
returns X_LINK_SUCCESS — for every transport outcome `hdr_res`/`data_res`,
i.e. whether the writes succeeded or failed. -/
theorem submit_running_destroys_event (origin : xlink_event_origin)
    (event : xlink_event) (hdr_res data_res : write_result)
    (st : global_state) (d : dispatcher)
    (hd : get_dispatcher_by_id st event.link_id = some d)
    (hrun : d.state = XLINK_DISPATCHER_RUNNING) :
    (xlink_dispatcher_event_add origin event hdr_res data_res st).1 =
        X_LINK_SUCCESS ∧
      ∃ e : xlink_event, e.link_id = event.link_id ∧ e.origin = origin ∧
        get_dispatcher_by_id
            (xlink_dispatcher_event_add origin event hdr_res data_res st).2.1
            event.link_id =
          some { d with
                   buff_queue := (event_enqueue_buffer d.buff_queue e).2 } := by
  have hne : ¬ (d.state ≠ XLINK_DISPATCHER_RUNNING) := by simp [hrun]
  have hadd : xlink_dispatcher_event_add origin event hdr_res data_res st =
      (X_LINK_SUCCESS,
        xlink_destroy_event
          (if origin = EVENT_TX then
            { st with next_id := (st.next_id + 1) % UINT32_MOD }
          else st)
          (dispatcher_event_send hdr_res data_res
            { event with
                header := { event.header with
                  id := if origin = EVENT_TX then st.next_id % UINT32_MOD
                        else event.header.id },
                origin := origin }).2.2,
        (dispatcher_event_send hdr_res data_res
          { event with
              header := { event.header with
                id := if origin = EVENT_TX then st.next_id % UINT32_MOD
                      else event.header.id },
              origin := origin }).2.1) := by
    simp only [xlink_dispatcher_event_add, hd]
    rw [if_neg hne]
    cases origin <;> rfl
  rw [hadd]
  have hget1 : get_dispatcher_by_id
      (if origin = EVENT_TX then
        { st with next_id := (st.next_id + 1) % UINT32_MOD }
      else st) event.link_id = some d := by
    by_cases ho : origin = EVENT_TX
    · rw [if_pos ho, get_dispatcher_by_id_next_id]; exact hd
    · rw [if_neg ho]; exact hd
  refine ⟨rfl,
    (dispatcher_event_send hdr_res data_res
      { event with
          header := { event.header with
            id := if origin = EVENT_TX then st.next_id % UINT32_MOD
                  else event.header.id },
          origin := origin }).2.2,
    (dispatcher_event_send_preserves hdr_res data_res _).1,
    (dispatcher_event_send_preserves hdr_res data_res _).2,
    destroy_after_send_pool _ _ d hdr_res data_res hget1⟩

/-- Witness for C4 at a concrete input: a submit on the RUNNING dispatcher
returns success and hands the event back to the link's pool. -/
theorem submit_running_destroys_event_witness :
    (xlink_dispatcher_event_add EVENT_TX sample_event
        { rc := 0, out_size := 44 } { rc := 0, out_size := 4 }
        st_running).1 = X_LINK_SUCCESS ∧
      ∃ e : xlink_event, e.link_id = sample_event.link_id ∧
        e.origin = EVENT_TX ∧
        get_dispatcher_by_id
            (xlink_dispatcher_event_add EVENT_TX sample_event
              { rc := 0, out_size := 44 } { rc := 0, out_size := 4 }
              st_running).2.1 sample_event.link_id =
          some { running_disp with
                   buff_queue :=
                     (event_enqueue_buffer running_disp.buff_queue e).2 } :=
  submit_running_destroys_event EVENT_TX sample_event
    { rc := 0, out_size := 44 } { rc := 0, out_size := 4 } st_running
    running_disp (by decide) rfl

/-- C7: in one RX-loop iteration whose header read fully succeeded, the
event is forwarded to the multiplexer if and only if the read header's magic
equals the sentinel; an invalid header is dropped with no error — the same
event buffer (whose header the read overwrote) is kept for the next read and
nothing else changes.  A forwarded event carries the dispatcher's link id,
stamped before the hand-off.  A replacement event is taken from the pool
only when the multiplexer returned status zero; on a non-zero status the
loop keeps the current (stamped) event instead of recycling it. -/
theorem rxthread_step_spec (link_id : Nat) (handle : xlink_handle)
    (gifsdi : Nat → Int) (rr : read_result) (mux_rc : Int)
    (event : xlink_event) (st : global_state)
    (hrc : rr.rc = 0) (hsz : rr.out_size = event_header_wire_size) :
    ((xlink_dispatcher_rxthread_step link_id handle gifsdi rr mux_rc event
        st).forwarded.isSome ↔
      rr.header_read.magic = XLINK_EVENT_HEADER_MAGIC) ∧
    (rr.header_read.magic ≠ XLINK_EVENT_HEADER_MAGIC →
      xlink_dispatcher_rxthread_step link_id handle gifsdi rr mux_rc event
          st =
        { event := some { event with header := rr.header_read }, st := st,
          forwarded := none, recycled := false }) ∧
    (∀ fe, (xlink_dispatcher_rxthread_step link_id handle gifsdi rr mux_rc
        event st).forwarded = some fe →
      fe.link_id = link_id ∧
        fe = { event with header := rr.header_read, link_id := link_id }) ∧
    ((xlink_dispatcher_rxthread_step link_id handle gifsdi rr mux_rc event
        st).recycled = true → mux_rc = 0) ∧
    (rr.header_read.magic = XLINK_EVENT_HEADER_MAGIC → mux_rc ≠ 0 →
      (xlink_dispatcher_rxthread_step link_id handle gifsdi rr mux_rc event
          st).event =
          some { event with header := rr.header_read, link_id := link_id } ∧
        (xlink_dispatcher_rxthread_step link_id handle gifsdi rr mux_rc
          event st).recycled = false ∧
        (xlink_dispatcher_rxthread_step link_id handle gifsdi rr mux_rc
          event st).st = st) := by
  have hread : ¬ (rr.rc ≠ 0 ∨ rr.out_size ≠ event_header_wire_size) := by
    simp [hrc, hsz]
  by_cases hm : rr.header_read.magic = XLINK_EVENT_HEADER_MAGIC
  · have hvalid : is_valid_event_header
        { event with header := rr.header_read } = 1 := by
      simp [is_valid_event_header, hm]
    by_cases hmux : mux_rc = 0
    · rcases hc : xlink_create_event gifsdi st link_id XLINK_WRITE_REQ handle
          0 0 0 with _ | ⟨fresh, st1⟩ <;>
        simp [xlink_dispatcher_rxthread_step, hread, hvalid, hmux, hc, hm]
    · simp [xlink_dispatcher_rxthread_step, hread, hvalid, hmux, hm]
  · have hvalid : is_valid_event_header
        { event with header := rr.header_read } ≠ 1 := by
      simp [is_valid_event_header, hm]
    simp [xlink_dispatcher_rxthread_step, hread, hvalid, hm]

/-- Witness for C7 at a concrete input: a valid header with a zero
multiplexer status on the running dispatcher's pool. -/
theorem rxthread_step_spec_witness :
    ((xlink_dispatcher_rxthread_step 0 { sw_device_id := 7 } gifsdi0
        { rc := 0, out_size := event_header_wire_size,
          header_read := sample_event.header } 0 blank_event
        st_running).forwarded.isSome ↔
      sample_event.header.magic = XLINK_EVENT_HEADER_MAGIC) ∧
    (sample_event.header.magic ≠ XLINK_EVENT_HEADER_MAGIC →
      xlink_dispatcher_rxthread_step 0 { sw_device_id := 7 } gifsdi0
          { rc := 0, out_size := event_header_wire_size,
            header_read := sample_event.header } 0 blank_event st_running =
        { event := some { blank_event with header := sample_event.header },
          st := st_running, forwarded := none, recycled := false }) ∧
    (∀ fe, (xlink_dispatcher_rxthread_step 0 { sw_device_id := 7 } gifsdi0
        { rc := 0, out_size := event_header_wire_size,
          header_read := sample_event.header } 0 blank_event
        st_running).forwarded = some fe →
      fe.link_id = 0 ∧
        fe = { blank_event with header := sample_event.header, link_id := 0 }) ∧
    ((xlink_dispatcher_rxthread_step 0 { sw_device_id := 7 } gifsdi0
        { rc := 0, out_size := event_header_wire_size,
          header_read := sample_event.header } 0 blank_event
        st_running).recycled = true → (0 : Int) = 0) ∧
    (sample_event.header.magic = XLINK_EVENT_HEADER_MAGIC → (0 : Int) ≠ 0 →
      (xlink_dispatcher_rxthread_step 0 { sw_device_id := 7 } gifsdi0
          { rc := 0, out_size := event_header_wire_size,
            header_read := sample_event.header } 0 blank_event
          st_running).event =
          some { blank_event with header := sample_event.header, link_id := 0 } ∧
        (xlink_dispatcher_rxthread_step 0 { sw_device_id := 7 } gifsdi0
          { rc := 0, out_size := event_header_wire_size,
            header_read := sample_event.header } 0 blank_event
          st_running).recycled = false ∧
        (xlink_dispatcher_rxthread_step 0 { sw_device_id := 7 } gifsdi0
          { rc := 0, out_size := event_header_wire_size,
            header_read := sample_event.header } 0 blank_event
          st_running).st = st_running) :=
  rxthread_step_spec 0 { sw_device_id := 7 } gifsdi0
    { rc := 0, out_size := event_header_wire_size,
      header_read := sample_event.header } 0 blank_event st_running rfl rfl

end XlinkDispatcher
